import Mathlib

/-!
Shallow embedding of `client-v2/path.cpp` from the Ronald map-navigation
firmware: the serial path ingestor (`read_path`), the viewport visibility
test (`is_coord_visible`) and the segment renderer (`draw_path`).

External collaborators (serial transport, geodesy conversion, allocator,
display) are modelled as parameters; the mutable globals of `map.h`
(active map number, viewport origin and size) form an explicit state
record that is threaded through the renderer.
-/

/-- Geographic coordinate. The struct `coord_t` is declared in `map.h`
(not present in the sources); modelled from the spec: "a pair of signed
integer fields `lat`, `lon`". -/
structure coord_t where
  lat : Int
  lon : Int
deriving Repr, DecidableEq

/-- Observable outcome of one `read_path` call: the `uint8_t` return value,
the values stored through `length_p` and `path_p` (`none` models a null
pointer), the global `path_errno` after the call, how many coordinate
lines were consumed from the serial stream, and the element count passed
to `malloc` when allocation was attempted (`none` = never called). -/
structure ReadPathResult where
  ret : Nat
  length_out : Nat
  path_out : Option (List coord_t)
  path_errno : Int
  coordLinesConsumed : Nat
  allocRequested : Option Nat
deriving Repr, DecidableEq

/-- The ideal (unbounded-integer) memory ceiling `(AVAIL_MEM - 256) /
sizeof(coord_t)` of `path.cpp` line 45. `AVAIL_MEM` comes from the
external `mem_syms.h` library; modelled from the spec: "currently
available memory", an integer number of bytes. C integer division
truncates toward zero, hence `Int.tdiv`. -/
def max_path_size_ideal (avail : Int) (sizeofCoord : Nat) : Int :=
  Int.tdiv (avail - 256) sizeofCoord

/-- The ceiling actually stored by line 45: the ideal quotient converted
to the `uint16_t` local `max_path_size`, i.e. reduced modulo 2^16 (C
conversion to an unsigned type). -/
def max_path_size (avail : Int) (sizeofCoord : Nat) : Int :=
  max_path_size_ideal avail sizeofCoord % 65536

/-- `read_path` (path.cpp lines 25-102), embedded over its environment:
`avail` and `sizeofCoord` determine the memory ceiling; `alloc n` tells
whether `malloc(n * sizeof(coord_t))` succeeds; `countVal` is the signed
integer parsed from the first field of the first line, and `coordLine k`
the pair of signed integers parsed from the two fields of the k-th
coordinate line (the transport and `string_get_int` are external, so a
line is modelled by the values it parses to).

Flow of the source: zero the outputs and `path_errno`, busy-wait for
input (no observable effect), compute the ceiling, read the count line;
reject with `path_errno = 1` when `countVal < 0` or the stored ceiling is
below it (consuming no coordinate line, attempting no allocation);
otherwise truncate the count into the `uint8_t` local `tmp_length`
(mod 256), store it through `length_p`, allocate; on allocation failure
set `path_errno = 2` and return 0 with the length already stored; else
read `tmp_length` coordinate lines in order into the array and return 1. -/
def read_path (avail : Int) (sizeofCoord : Nat) (alloc : Nat → Bool)
    (countVal : Int) (coordLine : Nat → Int × Int) : ReadPathResult :=
  if countVal < 0 ∨ max_path_size avail sizeofCoord < countVal then
    { ret := 0, length_out := 0, path_out := none, path_errno := 1,
      coordLinesConsumed := 0, allocRequested := none }
  else
    let tmp_length : Nat := countVal.toNat % 256
    if alloc tmp_length then
      { ret := 1, length_out := tmp_length,
        path_out := some ((List.range tmp_length).map fun k =>
          { lat := (coordLine k).1, lon := (coordLine k).2 }),
        path_errno := 0, coordLinesConsumed := tmp_length,
        allocRequested := some tmp_length }
    else
      { ret := 0, length_out := tmp_length, path_out := none,
        path_errno := 2, coordLinesConsumed := 0,
        allocRequested := some tmp_length }

/-- External geodesy conversions declared in `map.h` (not in the
sources); modelled from the spec: "convert a latitude to a vertical pixel
coordinate on a named map tile", and likewise for longitude. They are
pure functions of the map number and the coordinate value, returning a
map-pixel coordinate. -/
structure Geo where
  latitude_to_y : Nat → Int → Nat
  longitude_to_x : Nat → Int → Nat

/-- The mutable globals of `map.h` read by the renderer; modelled from
the spec: "ambient readable state {active map id, viewport origin,
viewport width and height}". -/
structure MapState where
  current_map_num : Nat
  screen_map_x : Nat
  screen_map_y : Nat
  display_window_width : Nat
  display_window_height : Nat
deriving Repr, DecidableEq

/-- The fixed display color passed to every `tft.drawLine` call; the
constant lives in the external `Adafruit_ST7735` header, its exact value
is irrelevant (only that it is one fixed color). -/
def ST7735_BLUE : Nat := 31

/-- One `tft.drawLine(x0, y0, x1, y1, color)` call issued to the display
collaborator. -/
structure DrawCall where
  x0 : Int
  y0 : Int
  x1 : Int
  y1 : Int
  color : Nat
deriving Repr, DecidableEq

/-- A C array access `path[i]`: inside the array it yields the element,
past the end it is an out-of-bounds read whose result is whatever byte
pattern sits there, modelled by the environment `oob`. -/
def readCoord (oob : Nat → coord_t) (path : List coord_t) (i : Nat) : coord_t :=
  path.getD i (oob i)

/-- `is_coord_visible` (path.cpp lines 104-117): convert the point to
map-pixel space via the geodesy collaborator bound to the current map,
then test strict containment against the viewport origin and size on all
four bounds. Pure in the state; returns the `uint8_t` boolean as `Bool`. -/
def is_coord_visible (g : Geo) (s : MapState) (point : coord_t) : Bool :=
  let point_map_y := g.latitude_to_y s.current_map_num point.lat
  let point_map_x := g.longitude_to_x s.current_map_num point.lon
  decide (s.screen_map_x < point_map_x) &&
  decide (point_map_x < s.screen_map_x + s.display_window_width) &&
  decide (s.screen_map_y < point_map_y) &&
  decide (point_map_y < s.screen_map_y + s.display_window_height)

/-- Accumulator of the renderer loop: the global map state (threaded so
that any mutation would be visible), the draw calls issued so far, and
the path indices read so far. -/
structure DrawAcc where
  state : MapState
  calls : List DrawCall
  reads : List Nat
deriving Repr, DecidableEq

/-- One iteration of the segment loop of `draw_path` (path.cpp lines
141-173) at index `i`. The condition on line 150 is
`is_coord_visible(path[i]) && is_coord_visible(path[i+1])` with C++
short-circuit evaluation: `path[i]` is read in every iteration, but
`path[i+1]` is read only when the first call returns true, hence the
nested conditional. When both endpoints are visible, each is converted
to screen-local coordinates by subtracting the viewport origin from its
map-pixel coordinates (as `int32_t`, hence over `Int`) and one
`drawLine` in the fixed color is issued; otherwise nothing is issued. -/
def draw_path_step (g : Geo) (oob : Nat → coord_t) (path : List coord_t)
    (acc : DrawAcc) (i : Nat) : DrawAcc :=
  let s := acc.state
  let p0 := readCoord oob path i
  if is_coord_visible g s p0 then
    let p1 := readCoord oob path (i + 1)
    if is_coord_visible g s p1 then
      let start_x : Int := (g.longitude_to_x s.current_map_num p0.lon : Int) - s.screen_map_x
      let start_y : Int := (g.latitude_to_y s.current_map_num p0.lat : Int) - s.screen_map_y
      let stop_x : Int := (g.longitude_to_x s.current_map_num p1.lon : Int) - s.screen_map_x
      let stop_y : Int := (g.latitude_to_y s.current_map_num p1.lat : Int) - s.screen_map_y
      { state := s,
        calls := acc.calls ++
          [{ x0 := start_x, y0 := start_y, x1 := stop_x, y1 := stop_y,
             color := ST7735_BLUE }],
        reads := acc.reads ++ [i, i + 1] }
    else
      { state := s, calls := acc.calls, reads := acc.reads ++ [i, i + 1] }
  else
    { state := s, calls := acc.calls, reads := acc.reads ++ [i] }

/-- The guard of both `for (uint8_t i=0; i<length; i++)` loops of
`draw_path`: the `uint8_t` counter value `i` is compared against the
`uint16_t` parameter `length`. -/
def drawLoopGuard (length i : Nat) : Bool := decide (i < length)

/-- The `uint8_t` loop counter after `k` increments from 0: it wraps
modulo 2^8. -/
def drawCounterAfter (k : Nat) : Nat := k % 256

/-- `draw_path` (path.cpp lines 119-174). The prologue (lines 132-133)
unconditionally reads `path[0]` to compute the first point's map-pixel
position (the debug print loop, compiled out without `DEBUG_PATH`, reads
nothing). The segment loop then runs `draw_path_step` for
`i = 0, ..., length - 1`. Both loops use a `uint8_t` counter against the
`uint16_t` `length`, so for `length ≥ 256` the guard never fails and the
call diverges, modelled as `none` (see the counter analysis theorems). -/
def draw_path (g : Geo) (oob : Nat → coord_t) (s : MapState)
    (length : Nat) (path : List coord_t) : Option DrawAcc :=
  if length < 256 then
    some ((List.range length).foldl (draw_path_step g oob path)
      { state := s, calls := [], reads := [0] })
  else
    none

/-- Declarative description of one candidate segment, following the
spec (section 4.3): when both endpoints are visible, exactly one
line-draw command in the fixed display color, each endpoint converted to
screen-local coordinates by subtracting the viewport origin from its
map-pixel coordinates; otherwise no command. Stated separately from
`draw_path_step` so the imperative loop can be proved to refine it. -/
def segment_call_spec (g : Geo) (s : MapState) (oob : Nat → coord_t)
    (path : List coord_t) (i : Nat) : Option DrawCall :=
  let p0 := readCoord oob path i
  let p1 := readCoord oob path (i + 1)
  if is_coord_visible g s p0 && is_coord_visible g s p1 then
    some { x0 := (g.longitude_to_x s.current_map_num p0.lon : Int) - s.screen_map_x,
           y0 := (g.latitude_to_y s.current_map_num p0.lat : Int) - s.screen_map_y,
           x1 := (g.longitude_to_x s.current_map_num p1.lon : Int) - s.screen_map_x,
           y1 := (g.latitude_to_y s.current_map_num p1.lat : Int) - s.screen_map_y,
           color := ST7735_BLUE }
  else
    none

/-- The path indices read by one iteration of the segment loop: `i` is
always read for the first visibility call; `i + 1` is read only when
`path[i]` turns out visible, because the `&&` on line 150
short-circuits. -/
def segment_reads (g : Geo) (s : MapState) (oob : Nat → coord_t)
    (path : List coord_t) (i : Nat) : List Nat :=
  if is_coord_visible g s (readCoord oob path i) then [i, i + 1] else [i]

/-- Concrete geodesy for tests: the pixel coordinate is the coordinate
value itself (clamped to `Nat`). -/
def geo0 : Geo where
  latitude_to_y := fun _ v => v.toNat
  longitude_to_x := fun _ v => v.toNat

/-- Concrete viewport for tests: origin (5, 5), size 100 by 100. -/
def state0 : MapState where
  current_map_num := 0
  screen_map_x := 5
  screen_map_y := 5
  display_window_width := 100
  display_window_height := 100

/-- Out-of-bounds garbage that happens to land inside `state0`. -/
def oobVisible : Nat → coord_t := fun _ => { lat := 50, lon := 50 }

/-- Out-of-bounds garbage that lands outside `state0`. -/
def oobFar : Nat → coord_t := fun _ => { lat := 0, lon := 0 }

theorem draw_path_step_eq (g : Geo) (oob : Nat → coord_t)
    (path : List coord_t) (acc : DrawAcc) (i : Nat) :
    draw_path_step g oob path acc i =
      { state := acc.state,
        calls := acc.calls ++ (segment_call_spec g acc.state oob path i).toList,
        reads := acc.reads ++ segment_reads g acc.state oob path i } := by
  simp only [draw_path_step, segment_call_spec, segment_reads]
  split <;> rename_i h
  · split <;> rename_i h2 <;> simp [h, h2]
  · simp [h]

theorem draw_path_foldl (g : Geo) (oob : Nat → coord_t)
    (path : List coord_t) (l : List Nat) (acc : DrawAcc) :
    l.foldl (draw_path_step g oob path) acc =
      { state := acc.state,
        calls := acc.calls ++ l.filterMap (segment_call_spec g acc.state oob path),
        reads := acc.reads ++ l.flatMap (segment_reads g acc.state oob path) } := by
  induction l generalizing acc with
  | nil => simp
  | cons i t ih =>
    rw [List.foldl_cons, draw_path_step_eq, ih]
    simp only [List.filterMap_cons, List.flatMap_cons]
    cases h : segment_call_spec g acc.state oob path i <;>
      simp [h, List.append_assoc]

/-- Closed form of `draw_path` in the terminating regime: the state comes
back unchanged, the issued calls are exactly the declarative per-segment
description over indices `0, ..., length - 1`, and the indices read are
the prologue read of `path[0]` followed per iteration by `path[i]` and —
only when `path[i]` is visible, the `&&` short-circuits otherwise —
`path[i+1]`. -/
theorem draw_path_eq (g : Geo) (oob : Nat → coord_t) (s : MapState)
    (length : Nat) (path : List coord_t) (h : length < 256) :
    draw_path g oob s length path =
      some { state := s,
             calls := (List.range length).filterMap (segment_call_spec g s oob path),
             reads := 0 :: (List.range length).flatMap (segment_reads g s oob path) } := by
  simp [draw_path, if_pos h, draw_path_foldl]

/-- C1 counterexample. The claim asks that every `0 ≤ N ≤ max_path_size`
with well-formed lines succeed with output length `N`; with ceiling 500
(avail 4256, 8-byte coordinates) the declared count 300 is within range,
yet the `uint8_t` local `tmp_length` truncates it to 44: the call
"succeeds" with length 44, not 300. -/
theorem C1_counterexample :
    (0 : Int) ≤ 300 ∧ (300 : Int) ≤ max_path_size 4256 8 ∧
    (read_path 4256 8 (fun _ => true) 300 fun k => ((k : Int), (k : Int))).ret = 1 ∧
    (read_path 4256 8 (fun _ => true) 300 fun k => ((k : Int), (k : Int))).length_out ≠ 300 ∧
    (read_path 4256 8 (fun _ => true) 300 fun k => ((k : Int), (k : Int))).length_out = 44 := by
  decide

/-- C1 (amended): for every declared length `N` with
`0 ≤ N ≤ max_path_size` that moreover fits the `uint8_t` length local
(`N < 256`), given well-formed coordinate lines and a successful
allocation, `read_path` returns 1, stores length `N`, populates the
array with the `N` parsed coordinates in serial order, consumes exactly
`N` coordinate lines, and leaves `path_errno = 0`. -/
theorem C1_read_path_success (avail : Int) (sz : Nat) (alloc : Nat → Bool)
    (n : Int) (lines : Nat → Int × Int)
    (h0 : 0 ≤ n) (h1 : n ≤ max_path_size avail sz) (h2 : n < 256)
    (ha : alloc n.toNat = true) :
    read_path avail sz alloc n lines =
      { ret := 1, length_out := n.toNat,
        path_out := some ((List.range n.toNat).map fun k =>
          { lat := (lines k).1, lon := (lines k).2 }),
        path_errno := 0, coordLinesConsumed := n.toNat,
        allocRequested := some n.toNat } := by
  have hmod : n.toNat % 256 = n.toNat := Nat.mod_eq_of_lt (by omega)
  simp only [read_path, hmod]
  rw [if_neg (show ¬(n < 0 ∨ max_path_size avail sz < n) by omega), if_pos ha]

/-- C1 witness: ceiling 500, declared count 2, two coordinate lines. -/
theorem C1_witness :
    read_path 4256 8 (fun _ => true) 2 (fun k => ((k : Int), (k : Int))) =
      { ret := 1, length_out := 2,
        path_out := some ((List.range 2).map fun k =>
          { lat := ((k : Int), (k : Int)).1, lon := ((k : Int), (k : Int)).2 }),
        path_errno := 0, coordLinesConsumed := 2, allocRequested := some 2 } :=
  C1_read_path_success 4256 8 (fun _ => true) 2 (fun k => ((k : Int), (k : Int)))
    (by decide) (by decide) (by decide) (by decide)

/-- C3: for every declared count `N` with `N < 0` or
`N > max_path_size`, `read_path` returns 0, the output length is 0, the
output path pointer is null, `path_errno` is 1, no allocation is
attempted and no coordinate line is consumed. -/
theorem C3_invalid_length_rejected (avail : Int) (sz : Nat)
    (alloc : Nat → Bool) (n : Int) (lines : Nat → Int × Int)
    (h : n < 0 ∨ max_path_size avail sz < n) :
    read_path avail sz alloc n lines =
      { ret := 0, length_out := 0, path_out := none, path_errno := 1,
        coordLinesConsumed := 0, allocRequested := none } := by
  simp only [read_path, if_pos h]

/-- C3 witness: declared count -1 is rejected with status 1. -/
theorem C3_witness :
    read_path 4256 8 (fun _ => true) (-1) (fun k => ((k : Int), (k : Int))) =
      { ret := 0, length_out := 0, path_out := none, path_errno := 1,
        coordLinesConsumed := 0, allocRequested := none } :=
  C3_invalid_length_rejected 4256 8 (fun _ => true) (-1)
    (fun k => ((k : Int), (k : Int))) (Or.inl (by decide))

/-- C4 counterexample. The claim asks that on allocation failure the
caller observe output length 0; but line 72 stores the (truncated)
declared count through `length_p` before `malloc` is called, so with
declared count 1 and a failing allocator the caller observes length 1. -/
theorem C4_counterexample :
    (read_path 4256 8 (fun _ => false) 1 fun k => ((k : Int), (k : Int))).path_errno = 2 ∧
    (read_path 4256 8 (fun _ => false) 1 fun k => ((k : Int), (k : Int))).length_out ≠ 0 ∧
    (read_path 4256 8 (fun _ => false) 1 fun k => ((k : Int), (k : Int))).length_out = 1 := by
  decide

/-- C4 (amended): when the allocator cannot satisfy the request,
`read_path` returns 0, `path_errno` is 2, the output path pointer is
null, and the output length observed by the caller is the truncated
declared count `N mod 256` (stored before allocation), not 0. -/
theorem C4_alloc_failure (avail : Int) (sz : Nat) (alloc : Nat → Bool)
    (n : Int) (lines : Nat → Int × Int)
    (h0 : 0 ≤ n) (h1 : n ≤ max_path_size avail sz)
    (ha : alloc (n.toNat % 256) = false) :
    read_path avail sz alloc n lines =
      { ret := 0, length_out := n.toNat % 256, path_out := none,
        path_errno := 2, coordLinesConsumed := 0,
        allocRequested := some (n.toNat % 256) } := by
  simp only [read_path]
  rw [if_neg (show ¬(n < 0 ∨ max_path_size avail sz < n) by omega),
    if_neg (by simp [ha])]

/-- C4 witness: declared count 1, failing allocator. -/
theorem C4_witness :
    read_path 4256 8 (fun _ => false) 1 (fun k => ((k : Int), (k : Int))) =
      { ret := 0, length_out := 1 % 256, path_out := none, path_errno := 2,
        coordLinesConsumed := 0, allocRequested := some (1 % 256) } :=
  C4_alloc_failure 4256 8 (fun _ => false) 1 (fun k => ((k : Int), (k : Int)))
    (by decide) (by decide) (by decide)

/-- C7 counterexample. The claim asks that below-reserve memory make the
ceiling "0 or negative" so that every `N > 0` fails with status 1 before
allocation. The ideal quotient is indeed negative (avail 0, 8-byte
coordinates: -32), but line 45 stores it in a `uint16_t`, where it wraps
to 65504: declared count 1 passes the check, `path_errno` stays 0, and
allocation is attempted. -/
theorem C7_counterexample :
    (0 : Int) < 256 ∧ max_path_size_ideal 0 8 = -32 ∧
    max_path_size 0 8 = 65504 ∧
    (read_path 0 8 (fun _ => true) 1 fun k => ((k : Int), (k : Int))).path_errno = 0 ∧
    (read_path 0 8 (fun _ => true) 1 fun k => ((k : Int), (k : Int))).allocRequested = some 1 ∧
    (read_path 0 8 (fun _ => true) 1 fun k => ((k : Int), (k : Int))).ret = 1 := by
  decide

/-- C7 (amended): below the reserve, rejection of every `N > 0` holds
only in the narrow band `256 - sizeof(coord_t) < avail < 256`, where the
truncated quotient is exactly 0; and the ceiling is monotone under
doubling of available memory in the wrap-free regime, i.e. when
`avail ≥ 256` and the doubled ideal ceiling still fits a `uint16_t`. -/
theorem C7_ceiling (avail : Int) (sz : Nat) (alloc : Nat → Bool)
    (n : Int) (lines : Nat → Int × Int) (hs : 0 < sz) :
    (256 - (sz : Int) < avail → avail < 256 → 0 < n →
      read_path avail sz alloc n lines =
        { ret := 0, length_out := 0, path_out := none, path_errno := 1,
          coordLinesConsumed := 0, allocRequested := none }) ∧
    (256 ≤ avail → max_path_size_ideal (2 * avail) sz < 65536 →
      max_path_size avail sz ≤ max_path_size (2 * avail) sz) := by
  constructor
  · intro hlo hhi hn
    have hz : max_path_size avail sz = 0 := by
      have h1 : max_path_size_ideal avail sz = 0 := by
        unfold max_path_size_ideal
        rw [show avail - 256 = -(256 - avail) by ring, Int.neg_tdiv,
          Int.tdiv_eq_zero_of_lt (by omega) (by omega)]
        rfl
      unfold max_path_size
      rw [h1]
      rfl
    simp only [read_path, if_pos (Or.inr (show max_path_size avail sz < n by omega))]
  · intro h256 hbound
    have hnum : (0 : Int) ≤ avail - 256 := by omega
    have hnum2 : (0 : Int) ≤ 2 * avail - 256 := by omega
    have hszn : (0 : Int) ≤ (sz : Int) := Int.natCast_nonneg sz
    have hmono : max_path_size_ideal avail sz ≤ max_path_size_ideal (2 * avail) sz := by
      unfold max_path_size_ideal
      rw [Int.tdiv_eq_ediv hnum hszn, Int.tdiv_eq_ediv hnum2 hszn]
      exact Int.ediv_le_ediv (by exact_mod_cast hs) (by omega)
    have hn1 : 0 ≤ max_path_size_ideal avail sz :=
      Int.tdiv_nonneg hnum hszn
    unfold max_path_size
    rw [Int.emod_eq_of_lt hn1 (by omega), Int.emod_eq_of_lt (by omega) (by omega)]
    exact hmono

/-- C7 witness: avail 250 is in the rejecting band (248 < 250 < 256) so
count 1 fails with status 1 and no allocation; and doubling avail 4256
keeps the ceiling monotone (500 against 1032). -/
theorem C7_witness :
    read_path 250 8 (fun _ => true) 1 (fun k => ((k : Int), (k : Int))) =
      { ret := 0, length_out := 0, path_out := none, path_errno := 1,
        coordLinesConsumed := 0, allocRequested := none } ∧
    max_path_size 4256 8 ≤ max_path_size (2 * 4256) 8 :=
  ⟨(C7_ceiling 250 8 (fun _ => true) 1 (fun k => ((k : Int), (k : Int)))
      (by decide)).1 (by decide) (by decide) (by decide),
   (C7_ceiling 4256 8 (fun _ => true) 1 (fun k => ((k : Int), (k : Int)))
      (by decide)).2 (by decide) (by decide)⟩

/-- C2 counterexample. The claim asks that the loop access `path[i+1]`
for every index `i` up to `length - 1`, hence read index `length` on
every call with `length ≥ 1`; but the `&&` on line 150 short-circuits:
with a one-point path whose point is not visible (pixel (0, 0) against
viewport origin (5, 5)), only the prologue read and the first-endpoint
read happen — the reads are `[0, 0]` and index 1 = length is never
read. -/
theorem C2_counterexample :
    draw_path geo0 oobFar state0 1 [{ lat := 0, lon := 0 }] =
      some { state := state0, calls := [], reads := [0, 0] } ∧
    1 ∉ DrawAcc.reads { state := state0, calls := [], reads := [0, 0] } := by
  decide

/-- C2 (amended): for every path of length at least 1 (in the
terminating regime `length < 256`), whenever the final endpoint
`path[length - 1]` is visible, the last iteration of the segment loop
also evaluates `is_coord_visible(path[i+1])` with `i + 1 = length`, so
the index `length` — one slot past the last valid index — is among the
indices read, and the access at that index resolves through the
out-of-bounds branch of the array read. When `path[length - 1]` is not
visible the short-circuiting `&&` skips that read. -/
theorem C2_oob_read (g : Geo) (oob : Nat → coord_t) (s : MapState)
    (path : List coord_t) (length : Nat) (r : DrawAcc)
    (h1 : 1 ≤ length) (h2 : length < 256) (hp : path.length = length)
    (hv : is_coord_visible g s (readCoord oob path (length - 1)) = true)
    (hr : draw_path g oob s length path = some r) :
    length ∈ r.reads ∧ readCoord oob path length = oob length := by
  constructor
  · rw [draw_path_eq g oob s length path h2] at hr
    obtain rfl : r = _ := (Option.some.inj hr).symm
    apply List.mem_cons_of_mem
    apply List.mem_flatMap_of_mem (a := length - 1)
    · rw [List.mem_range]
      omega
    · simp only [segment_reads, hv, if_pos]
      rw [show length - 1 + 1 = length by omega]
      simp
  · unfold readCoord
    exact List.getD_eq_default _ _ (by omega)

/-- C2 witness: a one-point path whose point is visible; index 1 is
read and is out of bounds. -/
theorem C2_witness :
    1 ∈ DrawAcc.reads
      { state := state0,
        calls := [{ x0 := 45, y0 := 45, x1 := 45, y1 := 45, color := 31 }],
        reads := [0, 0, 1] } ∧
    readCoord oobVisible [{ lat := 50, lon := 50 }] 1 = oobVisible 1 :=
  C2_oob_read geo0 oobVisible state0 [{ lat := 50, lon := 50 }] 1
    { state := state0,
      calls := [{ x0 := 45, y0 := 45, x1 := 45, y1 := 45, color := 31 }],
      reads := [0, 0, 1] }
    (by decide) (by decide) (by decide) (by decide) (by decide)

/-- C5: `is_coord_visible` returns true iff the point's map-pixel
coordinates lie strictly inside the viewport on all four bounds; in
particular a point whose pixel coordinates equal the viewport origin
exactly is not visible, and one at origin + (1, 1) is visible whenever
the window is wider and taller than 1. -/
theorem C5_strict_bounds (g : Geo) (s : MapState) (p : coord_t) :
    (is_coord_visible g s p = true ↔
      (s.screen_map_x < g.longitude_to_x s.current_map_num p.lon ∧
       g.longitude_to_x s.current_map_num p.lon <
         s.screen_map_x + s.display_window_width ∧
       s.screen_map_y < g.latitude_to_y s.current_map_num p.lat ∧
       g.latitude_to_y s.current_map_num p.lat <
         s.screen_map_y + s.display_window_height)) ∧
    (g.longitude_to_x s.current_map_num p.lon = s.screen_map_x →
     g.latitude_to_y s.current_map_num p.lat = s.screen_map_y →
     is_coord_visible g s p = false) ∧
    (g.longitude_to_x s.current_map_num p.lon = s.screen_map_x + 1 →
     g.latitude_to_y s.current_map_num p.lat = s.screen_map_y + 1 →
     1 < s.display_window_width → 1 < s.display_window_height →
     is_coord_visible g s p = true) := by
  refine ⟨?_, ?_, ?_⟩
  · simp [is_coord_visible, and_assoc]
  · intro hx hy
    simp [is_coord_visible, hx, hy]
  · intro hx hy hw hh
    simp [is_coord_visible, hx, hy]
    omega

/-- C5 witness: with `geo0`/`state0` (origin (5, 5), window 100 by 100),
the point mapping to pixel (5, 5) is not visible and the point mapping
to pixel (6, 6) is visible. -/
theorem C5_witness :
    is_coord_visible geo0 state0 { lat := 5, lon := 5 } = false ∧
    is_coord_visible geo0 state0 { lat := 6, lon := 6 } = true :=
  ⟨(C5_strict_bounds geo0 state0 { lat := 5, lon := 5 }).2.1
      (by decide) (by decide),
   (C5_strict_bounds geo0 state0 { lat := 6, lon := 6 }).2.2
      (by decide) (by decide) (by decide) (by decide)⟩

/-- C6: in the terminating regime, the draw calls issued by `draw_path`
are exactly the declarative per-candidate-segment description: for each
`i` below `length`, one line-draw command in the fixed color with both
endpoints converted by subtracting the viewport origin when both
endpoints are visible, and nothing when either is not (no clipping). -/
theorem C6_segment_rendering (g : Geo) (oob : Nat → coord_t) (s : MapState)
    (length : Nat) (path : List coord_t) (h : length < 256) :
    (draw_path g oob s length path).map DrawAcc.calls =
      some ((List.range length).filterMap (segment_call_spec g s oob path)) := by
  rw [draw_path_eq g oob s length path h]
  rfl

/-- C6 witness: a two-point path with both points visible and invisible
out-of-bounds garbage issues exactly the declaratively described calls. -/
theorem C6_witness :
    (draw_path geo0 oobFar state0 2
        [{ lat := 50, lon := 50 }, { lat := 60, lon := 60 }]).map DrawAcc.calls =
      some ((List.range 2).filterMap (segment_call_spec geo0 state0 oobFar
        [{ lat := 50, lon := 50 }, { lat := 60, lon := 60 }])) :=
  C6_segment_rendering geo0 oobFar state0 2
    [{ lat := 50, lon := 50 }, { lat := 60, lon := 60 }] (by decide)

/-- C8 counterexample. The claim asks that a zero-length path cause no
read of any path element and that a one-point path produce no segments;
but the prologue (lines 132-133) reads `path[0]` even when `length = 0`,
and with a one-point path the loop evaluates the segment
`(path[0], path[1])` whose second endpoint is out-of-bounds garbage —
when that garbage happens to be visible, a line is drawn. -/
theorem C8_counterexample :
    (draw_path geo0 oobVisible state0 0 []).map DrawAcc.reads ≠ some [] ∧
    (draw_path geo0 oobVisible state0 1 [{ lat := 50, lon := 50 }]).map
      DrawAcc.calls ≠ some [] := by
  decide

/-- C8 (amended): a zero-length path issues no draw call but still reads
`path[0]` (the prologue); a one-point path issues no draw call provided
the out-of-bounds value read at index 1 fails the visibility test. -/
theorem C8_empty_and_singleton (g : Geo) (oob : Nat → coord_t)
    (s : MapState) (path : List coord_t)
    (h1 : path.length = 1) (hinv : is_coord_visible g s (oob 1) = false) :
    draw_path g oob s 0 path = some { state := s, calls := [], reads := [0] } ∧
    (draw_path g oob s 1 path).map DrawAcc.calls = some [] := by
  constructor
  · rw [draw_path_eq g oob s 0 path (by omega)]
    rfl
  · rw [draw_path_eq g oob s 1 path (by omega)]
    have hread : readCoord oob path 1 = oob 1 := by
      unfold readCoord
      exact List.getD_eq_default _ _ (by omega)
    simp [segment_call_spec, hread, hinv]

/-- C8 witness: a one-point path with out-of-bounds garbage that is not
visible. -/
theorem C8_witness :
    draw_path geo0 oobFar state0 0 [{ lat := 50, lon := 50 }] =
      some { state := state0, calls := [], reads := [0] } ∧
    (draw_path geo0 oobFar state0 1 [{ lat := 50, lon := 50 }]).map
      DrawAcc.calls = some [] :=
  C8_empty_and_singleton geo0 oobFar state0 [{ lat := 50, lon := 50 }]
    (by decide) (by decide)

/-- C9: both loops of `draw_path` compare a wrapping `uint8_t` counter
against the `uint16_t` length: for `length ≥ 256` the guard holds after
every number of increments, so the loops never exit (`draw_path`
diverges, modelled as `none`); for `length ≤ 255` the guard first fails
after exactly `length` increments, so the call terminates. -/
theorem C9_counter_wrap (length : Nat) :
    (256 ≤ length →
      (∀ k, drawLoopGuard length (drawCounterAfter k) = true) ∧
      (∀ (g : Geo) (oob : Nat → coord_t) (s : MapState) (path : List coord_t),
        draw_path g oob s length path = none)) ∧
    (length ≤ 255 →
      drawLoopGuard length (drawCounterAfter length) = false ∧
      (∀ k, k < length → drawLoopGuard length (drawCounterAfter k) = true) ∧
      (∀ (g : Geo) (oob : Nat → coord_t) (s : MapState) (path : List coord_t),
        (draw_path g oob s length path).isSome = true)) := by
  constructor
  · intro h
    refine ⟨fun k => ?_, fun g oob s path => ?_⟩
    · simp only [drawLoopGuard, drawCounterAfter, decide_eq_true_eq]
      omega
    · simp only [draw_path, if_neg (show ¬length < 256 by omega)]
  · intro h
    refine ⟨?_, fun k hk => ?_, fun g oob s path => ?_⟩
    · simp only [drawLoopGuard, drawCounterAfter, decide_eq_false_iff_not]
      omega
    · simp only [drawLoopGuard, drawCounterAfter, decide_eq_true_eq]
      omega
    · simp only [draw_path, if_pos (show length < 256 by omega), Option.isSome_some]

/-- C9 witness: with length 300 the guard still holds after 299 and
after 256 increments and the call diverges; with length 2 the guard
fails after exactly 2 increments. -/
theorem C9_witness :
    drawLoopGuard 300 (drawCounterAfter 299) = true ∧
    drawLoopGuard 300 (drawCounterAfter 256) = true ∧
    draw_path geo0 oobFar state0 300 [] = none ∧
    drawLoopGuard 2 (drawCounterAfter 2) = false :=
  ⟨((C9_counter_wrap 300).1 (by decide)).1 299,
   ((C9_counter_wrap 300).1 (by decide)).1 256,
   ((C9_counter_wrap 300).1 (by decide)).2 geo0 oobFar state0 [],
   ((C9_counter_wrap 2).2 (by decide)).1⟩

/-- C10: the renderer never mutates the externally owned viewport/map
state: whenever `draw_path` returns, the threaded state record (active
map number, viewport origin, width, height) comes back unchanged
(`is_coord_visible` is embedded as a pure function of that state and
issues no update at all). -/
theorem C10_viewport_not_mutated (g : Geo) (oob : Nat → coord_t)
    (s : MapState) (length : Nat) (path : List coord_t) (r : DrawAcc)
    (h : draw_path g oob s length path = some r) :
    r.state = s := by
  by_cases hl : length < 256
  · rw [draw_path_eq g oob s length path hl] at h
    obtain rfl : r = _ := (Option.some.inj h).symm
    rfl
  · simp only [draw_path, if_neg hl] at h
    exact absurd h (by simp)

/-- C10 witness: a concrete call returns the viewport state it was
given. -/
theorem C10_witness :
    DrawAcc.state { state := state0, calls := [], reads := [0] } = state0 :=
  C10_viewport_not_mutated geo0 oobFar state0 0 []
    { state := state0, calls := [], reads := [0] } (by decide)
